import Mathlib

/-!
Verification of the WiiMedic snapshot-history subsystem (source/history.c).

The file embeds the history module shallowly: the on-disk format is a list of
byte values (each byte a `Nat` below 256 in a real file), 32-bit fields are
`Nat`/`Int` with explicit two's-complement conversion where the source casts,
and the stateful save/load routines become pure functions from the file
contents (plus the caller's stack buffers, which the source leaves
uninitialized) to results.  All functions are total: the source never
aborts on malformed data, and totality of the embedding mirrors that.
-/

namespace WiiMedic

/-- HISTORY_MAGIC from history.c ('WMHC'). -/
def HISTORY_MAGIC : Nat := 0x574D4843

/-- HISTORY_VERSION from history.c. -/
def HISTORY_VERSION : Nat := 1

/-- MAX_SNAPSHOTS from history.c. -/
def MAX_SNAPSHOTS : Nat := 50

/-- The packed snapshot_t record of history.c.  Machine integers are modelled
as `Nat` (u32/u8) and `Int` (the s32 health score); the three trailing
padding bytes are kept so that the byte codec below is exact. -/
structure snapshot_t where
  run_number : Nat
  nand_clusters_used : Nat
  nand_inodes_used : Nat
  nand_health_score : Int
  ios_total : Nat
  ios_stubs : Nat
  ios_cios : Nat
  hollywood_rev : Nat
  boot2_ver : Nat
  has_sd : Nat
  has_usb : Nat
  wifi_ok : Nat
  gc_ports : Nat
  wiimotes : Nat
  pad0 : Nat
  pad1 : Nat
  pad2 : Nat
  deriving DecidableEq, Inhabited

/-- The packed history_header_t of history.c: magic, version, count, reserved. -/
structure history_header_t where
  magic : Nat
  version : Nat
  count : Nat
  reserved : Nat
  deriving DecidableEq, Inhabited

/-- Encoding of one 32-bit word as 4 bytes, big-endian (the PowerPC byte order
in which fwrite emits the packed structs).  16777216 = 2^24, 65536 = 2^16. -/
def encU32 (x : Nat) : List Nat :=
  [x / 16777216 % 256, x / 65536 % 256, x / 256 % 256, x % 256]

/-- Reassembly of 4 bytes (big-endian) into one 32-bit word, as fread fills a
u32 field from the file. -/
def decU32 (b0 b1 b2 b3 : Nat) : Nat := ((b0 * 256 + b1) * 256 + b2) * 256 + b3

/-- Reading a u32 bit pattern as a signed 32-bit int: the `(int)hdr->count`
cast in load_history (two's complement, as on the target compiler).
2147483648 = 2^31, 4294967296 = 2^32. -/
def s32ofU32 (n : Nat) : Int :=
  if n < 2147483648 then (n : Int) else (n : Int) - 4294967296

/-- Bit pattern of a signed 32-bit int stored into a u32-sized field. -/
def u32ofInt (i : Int) : Nat := (i % 4294967296).toNat

/-- fread of the 16-byte history_header_t from the start of the file.  It is
only applied to buffers holding at least 16 bytes (load_history bails out
first otherwise); the fallback arm is never reached at any call site. -/
def parse_header (b : List Nat) : history_header_t :=
  match b with
  | m0 :: m1 :: m2 :: m3 :: v0 :: v1 :: v2 :: v3 ::
    c0 :: c1 :: c2 :: c3 :: r0 :: r1 :: r2 :: r3 :: _ =>
      ⟨decU32 m0 m1 m2 m3, decU32 v0 v1 v2 v3, decU32 c0 c1 c2 c3, decU32 r0 r1 r2 r3⟩
  | _ => default

/-- fwrite of the 16-byte history_header_t. -/
def encode_header (h : history_header_t) : List Nat :=
  encU32 h.magic ++ encU32 h.version ++ encU32 h.count ++ encU32 h.reserved

/-- Size in bytes of the packed snapshot_t (9 u32 fields, 5 u8 fields,
3 padding bytes). -/
def SNAPSHOT_SIZE : Nat := 44

/-- fread of one packed 44-byte snapshot_t.  load_history only parses
complete records (fread reports the number of complete items), so this is
only ever applied to 44-byte chunks; the fallback arm is never reached. -/
def parse_snapshot (b : List Nat) : snapshot_t :=
  match b with
  | r0 :: r1 :: r2 :: r3 :: c0 :: c1 :: c2 :: c3 :: i0 :: i1 :: i2 :: i3 ::
    h0 :: h1 :: h2 :: h3 :: t0 :: t1 :: t2 :: t3 :: s0 :: s1 :: s2 :: s3 ::
    x0 :: x1 :: x2 :: x3 :: w0 :: w1 :: w2 :: w3 :: b0 :: b1 :: b2 :: b3 ::
    u0 :: u1 :: u2 :: u3 :: u4 :: p0 :: p1 :: p2 :: _ =>
      ⟨decU32 r0 r1 r2 r3, decU32 c0 c1 c2 c3, decU32 i0 i1 i2 i3,
       s32ofU32 (decU32 h0 h1 h2 h3), decU32 t0 t1 t2 t3, decU32 s0 s1 s2 s3,
       decU32 x0 x1 x2 x3, decU32 w0 w1 w2 w3, decU32 b0 b1 b2 b3,
       u0, u1, u2, u3, u4, p0, p1, p2⟩
  | _ => default

/-- fwrite of one packed 44-byte snapshot_t. -/
def encode_snapshot (s : snapshot_t) : List Nat :=
  encU32 s.run_number ++ encU32 s.nand_clusters_used ++ encU32 s.nand_inodes_used ++
  encU32 (u32ofInt s.nand_health_score) ++ encU32 s.ios_total ++ encU32 s.ios_stubs ++
  encU32 s.ios_cios ++ encU32 s.hollywood_rev ++ encU32 s.boot2_ver ++
  [s.has_sd % 256, s.has_usb % 256, s.wifi_ok % 256, s.gc_ports % 256, s.wiimotes % 256,
   s.pad0 % 256, s.pad1 % 256, s.pad2 % 256]

/-- Result of load_history: the header buffer after the call, the returned
`int count`, and the caller's snaps buffer after the call. -/
structure load_result where
  hdr : history_header_t
  count : Int
  snaps : List snapshot_t
  deriving DecidableEq

/-- load_history from history.c.  `file` is `none` when fopen fails.  `hdr0`
and `buf` are the contents of the caller's (uninitialized) header and
snaps buffers before the call: fread's return value for the records is
ignored by the source, so entries beyond the bytes actually present in the
file keep their previous (unread) contents.  A file shorter than the
16-byte header fails the `fread(hdr, ...) != 1` test and yields count 0.
The u32 record count is passed through the source's `(int)` cast before the
`count > max_snaps` clamp (both call sites pass max_snaps = MAX_SNAPSHOTS). -/
def load_history (file : Option (List Nat)) (hdr0 : history_header_t)
    (buf : List snapshot_t) : load_result :=
  match file with
  | none => ⟨hdr0, 0, buf⟩
  | some bytes =>
    if bytes.length < 16 then ⟨hdr0, 0, buf⟩
    else
      let hdr := parse_header (bytes.take 16)
      if hdr.magic ≠ HISTORY_MAGIC ∨ hdr.version ≠ HISTORY_VERSION then ⟨hdr, 0, buf⟩
      else
        let count0 : Int := s32ofU32 hdr.count
        let count : Int :=
          if count0 > (MAX_SNAPSHOTS : Int) then (MAX_SNAPSHOTS : Int) else count0
        if count > 0 then
          let body := bytes.drop 16
          let avail := min count.toNat (body.length / SNAPSHOT_SIZE)
          let parsed := (List.range avail).map
            (fun i => parse_snapshot ((body.drop (SNAPSHOT_SIZE * i)).take SNAPSHOT_SIZE))
          ⟨hdr, count, parsed ++ buf.drop avail⟩
        else ⟨hdr, count, buf⟩

/-- save_history from history.c.  `can_write` is whether fopen(path, "wb")
succeeds; on failure the function returns at once (result `none`: nothing
written, nothing reported).  Otherwise it stores magic, version and count
into the caller's header — leaving `reserved` as it was — and writes the
header followed by `count` records. -/
def save_history (can_write : Bool) (hdr : history_header_t)
    (snaps : List snapshot_t) (count : Int) : Option (List Nat) :=
  if can_write then
    some (encode_header ⟨HISTORY_MAGIC, HISTORY_VERSION, u32ofInt count, hdr.reserved⟩ ++
      ((snaps.take count.toNat).map encode_snapshot).flatten)
  else none

/-- The metrics supplied to collect_snapshot by the external probes
(ISFS usage query, ES title enumeration, opendir presence checks, pad
probes).  `nand_ok` is whether ISFS_Initialize returned ≥ 0. -/
structure metrics_bundle where
  hollywood_rev : Nat
  boot2_ver : Nat
  nand_ok : Bool
  used_bytes : Nat
  used_inodes : Nat
  ios_total : Nat
  ios_stubs : Nat
  ios_cios : Nat
  has_sd : Bool
  has_usb : Bool
  gc_ports : Nat
  wiimotes : Nat
  deriving DecidableEq

/-- The inline health-score block of collect_snapshot.  The source computes
`cpct = used_bytes * 100.0f / 2048.0f` and `ipct = used_inodes * 100.0f /
6143.0f` in single-precision float and compares against 95/85/75; for every
u32 input this agrees with the exact comparisons below: near each threshold
the products stay under 2^24 so the float values are exact up to the one
rounding of the division by 6143 (error < 95·2^-24, far smaller than the
minimal nonzero distance 15/6143 between an attainable percentage and a
threshold, while 75 % of 2048 is attained exactly at 1536 where both sides
agree the strict comparison is false), and far above the thresholds the
comparisons are true on both sides. -/
def nand_health_score_calc (used_bytes used_inodes : Nat) : Int :=
  let s1 : Int :=
    (100 : Int) -
      (if used_bytes * 100 > 95 * 2048 then 30
       else if used_bytes * 100 > 85 * 2048 then 15
       else if used_bytes * 100 > 75 * 2048 then 5 else 0) -
      (if used_inodes * 100 > 95 * 6143 then 30
       else if used_inodes * 100 > 85 * 6143 then 15
       else if used_inodes * 100 > 75 * 6143 then 5 else 0)
  if s1 < 0 then 0 else s1

/-- collect_snapshot from history.c as a pure transformation of the probe
results: memset zeroes everything, the NAND fields are only filled when
ISFS_Initialize succeeded (score sentinel -1 otherwise), wifi_ok is always
recorded 0, and the remaining fields are copied from the probes. -/
def collect_snapshot (m : metrics_bundle) (run_number : Nat) : snapshot_t :=
  { run_number := run_number
    nand_clusters_used := if m.nand_ok then m.used_bytes else 0
    nand_inodes_used := if m.nand_ok then m.used_inodes else 0
    nand_health_score :=
      if m.nand_ok then nand_health_score_calc m.used_bytes m.used_inodes else -1
    ios_total := m.ios_total
    ios_stubs := m.ios_stubs
    ios_cios := m.ios_cios
    hollywood_rev := m.hollywood_rev
    boot2_ver := m.boot2_ver
    has_sd := if m.has_sd then 1 else 0
    has_usb := if m.has_usb then 1 else 0
    wifi_ok := 0
    gc_ports := m.gc_ports
    wiimotes := m.wiimotes
    pad0 := 0, pad1 := 0, pad2 := 0 }

/-- Observable outcome of one history_save_snapshot call: the bytes written
back (`none` when the write-open failed and the file is left unchanged),
whether the "Snapshot #u saved" success message was drawn, the run number
it announced, and the in-memory record sequence (with its count) held in
the caller's locals after the call. -/
structure save_outcome where
  file : Option (List Nat)
  reported_ok : Bool
  run_number : Nat
  in_memory : List snapshot_t
  in_memory_count : Int
  deriving DecidableEq

/-- history_save_snapshot from history.c, for a resolved path whose current
contents are `file_bytes`: load the existing history, derive the next run
number from the last loaded record (1 on an empty load), collect the new
snapshot, shift out the oldest record when the store is full, append, and
write everything back.  `ui_draw_ok` is reached unconditionally after
save_history, so `reported_ok` is true even when `can_write` is false.
(The source's behaviour when the loaded count is negative — possible via
the `(int)` cast, see `load_count_cast_overflow_bug` — is an out-of-bounds
array write, i.e. undefined; no theorem below uses this function there.) -/
def history_save_snapshot (file_bytes : List Nat) (can_write : Bool)
    (m : metrics_bundle) (hdr0 : history_header_t) (buf : List snapshot_t) : save_outcome :=
  let r := load_history (some file_bytes) hdr0 buf
  let count := r.count
  let next_run : Nat :=
    if count > 0 then (r.snaps.getD (count.toNat - 1) default).run_number + 1 else 1
  let new_snap := collect_snapshot m next_run
  let snaps1 := if count ≥ (MAX_SNAPSHOTS : Int) then r.snaps.drop 1 else r.snaps
  let count1 : Int :=
    if count ≥ (MAX_SNAPSHOTS : Int) then (MAX_SNAPSHOTS : Int) - 1 else count
  let snaps2 := snaps1.take count1.toNat ++ [new_snap]
  let count2 : Int := count1 + 1
  ⟨save_history can_write r.hdr snaps2 count2, true, next_run, snaps2, count2⟩

/-- Trend classes drawn by show_trend. -/
inductive Trend where
  | unchanged
  | worse
  | improved
  deriving DecidableEq

/-- Classification logic of show_trend in history.c. -/
def show_trend_class (old_val new_val : Int) (higher_is_worse : Bool) : Trend :=
  if old_val = new_val then .unchanged
  else if (decide (new_val > old_val)) = higher_is_worse then .worse
  else .improved

/-- The guard in run_history around the health-score show_trend call:
the comparison is drawn only when both scores are ≥ 0. -/
def health_trend_shown (prev curr : Int) : Bool :=
  decide (0 ≤ prev) && decide (0 ≤ curr)

/-- The health-regression alert condition of run_history
(`curr >= 0 && prev >= 0 && curr < prev - 10`). -/
def health_regression_alert (prev curr : Int) : Bool :=
  decide (0 ≤ curr) && decide (0 ≤ prev) && decide (curr < prev - 10)

/-- One row of the run_history "Health Score Timeline" table: run number,
clusters used, inodes used, and the text the score cell prints. -/
structure timeline_row where
  run_number : Nat
  clusters : Nat
  inodes : Nat
  score_text : String
  deriving DecidableEq

/-- The score cell, snprintf(buf, ..., "%d/100", score). -/
def score_cell (s : Int) : String := toString s ++ "/100"

/-- Projection of one stored snapshot to its timeline row. -/
def timeline_row_of (s : snapshot_t) : timeline_row :=
  ⟨s.run_number, s.nand_clusters_used, s.nand_inodes_used,
   score_cell s.nand_health_score⟩

/-- The timeline block of run_history: emitted only when count > 1; starts at
`count - 10` when more than 10 records are on record, else at 0, and emits
one row per record from there to the end. -/
def timeline_rows (snaps : List snapshot_t) : List timeline_row :=
  if snaps.length > 1 then
    (snaps.drop (if snaps.length > 10 then snaps.length - 10 else 0)).map timeline_row_of
  else []

/-! Auxiliary definitions used by the theorems below. -/

/-- Bounds under which a snapshot survives the byte codec unchanged: exactly
the value ranges of the C struct fields (u32, s32, u8).  Every snapshot the
program itself builds or loads satisfies this. -/
def snapshot_wf (s : snapshot_t) : Prop :=
  s.run_number < 4294967296 ∧ s.nand_clusters_used < 4294967296 ∧
  s.nand_inodes_used < 4294967296 ∧
  -2147483648 ≤ s.nand_health_score ∧ s.nand_health_score < 2147483648 ∧
  s.ios_total < 4294967296 ∧ s.ios_stubs < 4294967296 ∧ s.ios_cios < 4294967296 ∧
  s.hollywood_rev < 4294967296 ∧ s.boot2_ver < 4294967296 ∧
  s.has_sd < 256 ∧ s.has_usb < 256 ∧ s.wifi_ok < 256 ∧
  s.gc_ports < 256 ∧ s.wiimotes < 256 ∧ s.pad0 < 256 ∧ s.pad1 < 256 ∧ s.pad2 < 256

/-- The full byte image save_history produces for a store `l` when the
header it was handed carries `r` in its reserved field. -/
def encode_file (r : Nat) (l : List snapshot_t) : List Nat :=
  encode_header ⟨HISTORY_MAGIC, HISTORY_VERSION, l.length, r⟩ ++
    (l.map encode_snapshot).flatten

/-- The reference health-score penalty of spec §4.3: subtract 30/15/5 when
the usage percentage exceeds 95/85/75. -/
def spec_penalty (pct : ℚ) : Int :=
  if pct > 95 then 30 else if pct > 85 then 15 else if pct > 75 then 5 else 0

/-- The spec's reference health-score derivation (§4.3, steps 1-5), written
from the spec's words: percentages over the fixed capacities 2048 clusters
and 6143 inodes, independent penalties, clamp at 0, sentinel -1 when the
usage probe failed (never clamped). -/
def spec_health_score (probe_ok : Bool) (used_bytes used_inodes : Nat) : Int :=
  if probe_ok then
    max ((100 : Int) - spec_penalty ((used_bytes : ℚ) / 2048 * 100) -
      spec_penalty ((used_inodes : ℚ) / 6143 * 100)) 0
  else -1

/-- Health scores that actually occur in this system: the sentinel -1 or a
clamped value in [0, 100] (spec §3). -/
def valid_score (s : Int) : Prop := s = -1 ∨ (0 ≤ s ∧ s ≤ 100)

/-- A fixed metrics bundle for the concrete save-sequence runs: every probe
succeeds and reports zero usage. -/
def zero_bundle : metrics_bundle := ⟨0, 0, true, 0, 0, 0, 0, 0, false, false, 0, 0⟩

/-- A concrete value for the caller's uninitialized stack header. -/
def uninit_hdr : history_header_t := ⟨0, 0, 0, 0⟩

/-- A concrete value for the caller's uninitialized 50-entry snaps array. -/
def uninit_buf : List snapshot_t := List.replicate 50 default

/-- The snapshot collect_snapshot builds from `zero_bundle` at a given run. -/
def snapC (run : Nat) : snapshot_t := collect_snapshot zero_bundle run

/-- The store contents after `k` sequential saves of `zero_bundle` snapshots
starting from empty storage: the last `min k 50` run numbers. -/
def storeC (k : Nat) : List snapshot_t :=
  (List.range' (k + 1 - min k 50) (min k 50)).map snapC

/-- One full save operation on the file contents: history_save_snapshot with
writable storage, reading and then replacing the file. -/
def save_step (f : List Nat) : List Nat :=
  (history_save_snapshot f true zero_bundle uninit_hdr uninit_buf).file.getD f

/-- A two-record store used as a concrete witness input. -/
def two_store : List snapshot_t := [snapC 1, snapC 2]

/-- A valid pre-existing history file whose header carries 7 in the reserved
field and declares zero records. -/
def fileR7 : List Nat := encode_header ⟨HISTORY_MAGIC, HISTORY_VERSION, 0, 7⟩

/-- A valid header declaring 51 records (just above capacity), no body. -/
def large_count_file : List Nat := encode_header ⟨HISTORY_MAGIC, HISTORY_VERSION, 51, 0⟩

/-- A valid header whose record count is 2^31: the `(int)` cast in
load_history turns it negative.  Its empty body also holds fewer complete
records than the declared count. -/
def overflow_count_file : List Nat :=
  encode_header ⟨HISTORY_MAGIC, HISTORY_VERSION, 2147483648, 0⟩

/-! Codec lemmas: a well-formed header/record survives the byte round trip. -/

theorem encode_header_length (h : history_header_t) : (encode_header h).length = 16 := rfl

theorem encode_snapshot_length (s : snapshot_t) : (encode_snapshot s).length = 44 := rfl

theorem parse_encode_header (a b c d : Nat) (ha : a < 4294967296) (hb : b < 4294967296)
    (hc : c < 4294967296) (hd : d < 4294967296) :
    parse_header (encode_header ⟨a, b, c, d⟩ ++ rest) = ⟨a, b, c, d⟩ := by
  simp only [encode_header, encU32, List.cons_append, List.nil_append, parse_header,
    decU32, history_header_t.mk.injEq]
  refine ⟨?_, ?_, ?_, ?_⟩ <;> omega

theorem parse_encode_snapshot (s : snapshot_t) (hs : snapshot_wf s) (rest : List Nat) :
    parse_snapshot (encode_snapshot s ++ rest) = s := by
  obtain ⟨f1, f2, f3, f4, f5, f6, f7, f8, f9, f10, f11, f12, f13, f14, f15, f16, f17⟩ := s
  dsimp only [snapshot_wf] at hs
  obtain ⟨w1, w2, w3, w4a, w4b, w5, w6, w7, w8, w9, w10, w11, w12, w13, w14, w15, w16, w17⟩ := hs
  simp only [encode_snapshot, encU32, List.cons_append, List.nil_append, parse_snapshot,
    decU32, snapshot_t.mk.injEq]
  refine ⟨?_, ?_, ?_, ?_, ?_, ?_, ?_, ?_, ?_, ?_, ?_, ?_, ?_, ?_, ?_, ?_, ?_⟩
  all_goals try simp only [s32ofU32, u32ofInt]
  all_goals try split
  all_goals omega

theorem flatten_encode_length (l : List snapshot_t) :
    ((l.map encode_snapshot).flatten).length = 44 * l.length := by
  induction l with
  | nil => rfl
  | cons s t ih =>
    rw [List.map_cons, List.flatten_cons, List.length_append, encode_snapshot_length, ih,
      List.length_cons]
    ring

theorem parse_chunks (l : List snapshot_t) (hwf : ∀ s ∈ l, snapshot_wf s) :
    (List.range l.length).map
      (fun i => parse_snapshot
        (((l.map encode_snapshot).flatten.drop (SNAPSHOT_SIZE * i)).take SNAPSHOT_SIZE)) = l := by
  induction l with
  | nil => simp
  | cons s t ih =>
    rw [List.length_cons, List.range_succ_eq_map, List.map_cons, List.map_map]
    congr 1
    · rw [Nat.mul_zero, List.drop_zero, List.map_cons, List.flatten_cons,
        List.take_append_of_le_length (by rw [encode_snapshot_length]; rfl)]
      rw [show (SNAPSHOT_SIZE : Nat) = (encode_snapshot s).length from rfl, List.take_length]
      have := parse_encode_snapshot s (hwf s (by simp)) []
      simpa using this
    · have hcong : ∀ i ∈ List.range t.length,
          ((fun i => parse_snapshot
            ((((s :: t).map encode_snapshot).flatten.drop
              (SNAPSHOT_SIZE * i)).take SNAPSHOT_SIZE)) ∘ Nat.succ) i =
          (fun i => parse_snapshot
            (((t.map encode_snapshot).flatten.drop
              (SNAPSHOT_SIZE * i)).take SNAPSHOT_SIZE)) i := by
        intro i _
        have hdrop : (((s :: t).map encode_snapshot).flatten).drop (SNAPSHOT_SIZE * (i + 1)) =
            ((t.map encode_snapshot).flatten).drop (SNAPSHOT_SIZE * i) := by
          rw [List.map_cons, List.flatten_cons,
            show SNAPSHOT_SIZE * (i + 1) = (encode_snapshot s).length + SNAPSHOT_SIZE * i by
              rw [encode_snapshot_length]
              simp [SNAPSHOT_SIZE]
              ring]
          exact List.drop_append _
        simp only [Function.comp_apply, Nat.succ_eq_add_one, hdrop]
      rw [List.map_congr_left hcong]
      exact ih (fun x hx => hwf x (by simp [hx]))

/-! Load/persist round trip and the save-sequence characterization. -/

theorem encode_file_length (r : Nat) (l : List snapshot_t) :
    (encode_file r l).length = 16 + 44 * l.length := by
  rw [encode_file, List.length_append, encode_header_length, flatten_encode_length]

theorem load_history_encode_file (l : List snapshot_t) (hwf : ∀ s ∈ l, snapshot_wf s)
    (hlen : l.length ≤ 50) (r : Nat) (hr : r < 4294967296)
    (hdr0 : history_header_t) (buf : List snapshot_t) :
    load_history (some (encode_file r l)) hdr0 buf =
      ⟨⟨HISTORY_MAGIC, HISTORY_VERSION, l.length, r⟩, (l.length : Int),
       l ++ buf.drop l.length⟩ := by
  have htake : (encode_file r l).take 16 =
      encode_header ⟨HISTORY_MAGIC, HISTORY_VERSION, l.length, r⟩ := by
    rw [encode_file]
    exact List.take_left' rfl
  have hdrop : (encode_file r l).drop 16 = (l.map encode_snapshot).flatten := by
    rw [encode_file]
    exact List.drop_left' rfl
  have hparse : parse_header ((encode_file r l).take 16) =
      ⟨HISTORY_MAGIC, HISTORY_VERSION, l.length, r⟩ := by
    rw [encode_file]
    exact parse_encode_header _ _ _ _ (by norm_num [HISTORY_MAGIC]) (by norm_num [HISTORY_VERSION])
      (by omega) hr
  have hlen16 : ¬ (encode_file r l).length < 16 := by
    rw [encode_file_length]
    omega
  simp only [load_history, if_neg hlen16, hparse]
  rw [if_neg (by simp [HISTORY_MAGIC, HISTORY_VERSION])]
  have hs32 : s32ofU32 l.length = (l.length : Int) := by
    simp only [s32ofU32]
    rw [if_pos (by omega)]
  simp only [hs32]
  rw [if_neg (by exact_mod_cast Nat.not_lt.mpr hlen : ¬ ((l.length : Int) > (MAX_SNAPSHOTS : Int)))]
  rcases Nat.eq_zero_or_pos l.length with h0 | hpos
  · rw [if_neg (by simp [h0])]
    rw [List.length_eq_zero.mp h0]
    simp
  · rw [if_pos (by exact_mod_cast hpos)]
    rw [hdrop]
    have havail : min ((l.length : Int)).toNat
        (((l.map encode_snapshot).flatten).length / SNAPSHOT_SIZE) = l.length := by
      rw [flatten_encode_length, Int.toNat_natCast]
      simp [SNAPSHOT_SIZE]
    rw [havail, parse_chunks l hwf]

theorem save_history_full (hdr : history_header_t) (snaps : List snapshot_t)
    (h : snaps.length < 4294967296) :
    save_history true hdr snaps (snaps.length : Int) =
      some (encode_file hdr.reserved snaps) := by
  have hu : u32ofInt (snaps.length : Int) = snaps.length := by
    simp only [u32ofInt]
    omega
  simp [save_history, encode_file, hu, Int.toNat_natCast, List.take_length]

theorem snapC_run (r : Nat) : (snapC r).run_number = r := rfl

theorem snapC_wf (r : Nat) (hr : r < 4294967296) : snapshot_wf (snapC r) := by
  simp [snapshot_wf, snapC, collect_snapshot, zero_bundle, nand_health_score_calc]
  omega

theorem storeC_length (k : Nat) : (storeC k).length = min k 50 := by
  simp [storeC]

theorem storeC_wf (k : Nat) (hk : k < 4294967296) : ∀ s ∈ storeC k, snapshot_wf s := by
  intro s hs
  simp only [storeC, List.mem_map, List.mem_range'] at hs
  obtain ⟨r, ⟨i, hi, hr⟩, rfl⟩ := hs
  exact snapC_wf r (by omega)

theorem save_step_encode (k : Nat) (hk1 : 1 ≤ k) (hk : k ≤ 52) :
    save_step (encode_file 0 (storeC k)) = encode_file 0 (storeC (k + 1)) := by
  have hn : (storeC k).length = min k 50 := storeC_length k
  have hload := load_history_encode_file (storeC k) (storeC_wf k (by omega))
    (by omega) 0 (by norm_num) uninit_hdr uninit_buf
  rw [save_step, history_save_snapshot, hload]
  dsimp only
  have hcount_pos : ((storeC k).length : Int) > 0 := by
    rw [hn]
    omega
  rw [if_pos hcount_pos]
  have hgetD : ((storeC k ++ uninit_buf.drop (storeC k).length).getD
      (((storeC k).length : Int).toNat - 1) default) = snapC k := by
    rw [Int.toNat_natCast,
      List.getD_append _ _ _ _ (by rw [hn] at hcount_pos ⊢; omega),
      List.getD_eq_getElem _ _ (by rw [hn] at hcount_pos ⊢; omega)]
    simp only [storeC, List.getElem_map, List.getElem_range']
    congr 1
    simp only [storeC, List.length_map, List.length_range'] at hn ⊢
    omega
  rw [hgetD, snapC_run]
  by_cases hk50 : k < 50
  · have hnk : (storeC k).length = k := by omega
    have hcond : ¬ (((storeC k).length : Int) ≥ (MAX_SNAPSHOTS : Int)) := by
      rw [hnk]
      simp only [MAX_SNAPSHOTS]
      omega
    simp only [if_neg hcond]
    have htail : (storeC k ++ uninit_buf.drop (storeC k).length).take
        (((storeC k).length : Int)).toNat = storeC k := by
      rw [Int.toNat_natCast]
      exact List.take_left' rfl
    rw [htail]
    have hsnaps : storeC k ++ [collect_snapshot zero_bundle (k + 1)] = storeC (k + 1) := by
      show storeC k ++ [snapC (k + 1)] = storeC (k + 1)
      have h1 : min k 50 = k := by omega
      have h2 : min (k + 1) 50 = k + 1 := by omega
      simp only [storeC, h1, h2, Nat.add_sub_cancel_left]
      rw [List.range'_concat, List.map_append, show 1 + 1 * k = k + 1 by omega]
      simp
    rw [hsnaps]
    have hlen2 : ((storeC k).length : Int) + 1 = ((storeC (k + 1)).length : Int) := by
      rw [hn, storeC_length]
      have h2 : min (k + 1) 50 = k + 1 := by omega
      rw [h2]
      omega
    rw [hlen2, save_history_full _ _ (by rw [storeC_length]; omega)]
    rfl
  · have hn50 : (storeC k).length = 50 := by omega
    have hcond : (((storeC k).length : Int) ≥ (MAX_SNAPSHOTS : Int)) := by
      rw [hn50]
      simp [MAX_SNAPSHOTS]
    simp only [if_pos hcond]
    have hcons : storeC k = snapC (k - 49) :: (List.range' (k - 48) 49).map snapC := by
      simp only [storeC, show min k 50 = 50 by omega]
      rw [show k + 1 - 50 = k - 49 by omega, List.range'_succ]
      rw [show k - 49 + 1 = k - 48 by omega]
      simp
    rw [hcons]
    simp only [List.cons_append, List.drop_succ_cons, List.drop_zero]
    have htake49 : (((List.range' (k - 48) 49).map snapC) ++
        uninit_buf.drop (snapC (k - 49) :: (List.range' (k - 48) 49).map snapC).length).take
          ((MAX_SNAPSHOTS : Int) - 1).toNat = (List.range' (k - 48) 49).map snapC := by
      simp only [MAX_SNAPSHOTS]
      exact List.take_left' (by simp)
    rw [htake49]
    have hsnaps : (List.range' (k - 48) 49).map snapC ++ [collect_snapshot zero_bundle (k + 1)] =
        storeC (k + 1) := by
      show (List.range' (k - 48) 49).map snapC ++ [snapC (k + 1)] = storeC (k + 1)
      simp only [storeC, show min (k + 1) 50 = 50 by omega]
      rw [show k + 1 + 1 - 50 = k - 48 by omega]
      conv_rhs => rw [List.range'_concat]
      rw [List.map_append, show k - 48 + 1 * 49 = k + 1 by omega]
      simp
    rw [hsnaps]
    have hlen2 : (MAX_SNAPSHOTS : Int) - 1 + 1 = ((storeC (k + 1)).length : Int) := by
      rw [storeC_length, show min (k + 1) 50 = 50 by omega]
      simp [MAX_SNAPSHOTS]
    rw [hlen2, save_history_full _ _ (by rw [storeC_length]; omega)]
    rfl

theorem save_step_empty : save_step [] = encode_file 0 (storeC 1) := by decide

theorem save_step_iterate (k : Nat) (hk1 : 1 ≤ k) (hk : k ≤ 53) :
    save_step^[k] [] = encode_file 0 (storeC k) := by
  induction k with
  | zero => omega
  | succ j ih =>
    rcases Nat.eq_zero_or_pos j with h0 | hj
    · subst h0
      simpa using save_step_empty
    · rw [Function.iterate_succ_apply', ih hj (by omega),
        save_step_encode j hj (by omega)]

/-! Remaining helper lemmas for the claim theorems. -/

theorem pct_gt_iff (u tN capN : Nat) (hc : 0 < capN) :
    ((u : ℚ) / (capN : ℚ) * 100 > (tN : ℚ)) ↔ u * 100 > tN * capN := by
  rw [div_mul_eq_mul_div, gt_iff_lt, lt_div_iff₀ (by exact_mod_cast hc)]
  constructor <;> intro h <;> exact_mod_cast h

theorem spec_penalty_cap (u capN : Nat) (capQ : ℚ) (hc : 0 < capN)
    (hcast : (capN : ℚ) = capQ) :
    spec_penalty ((u : ℚ) / capQ * 100) =
      if u * 100 > 95 * capN then 30
      else if u * 100 > 85 * capN then 15
      else if u * 100 > 75 * capN then 5 else 0 := by
  subst hcast
  have h95 := pct_gt_iff u 95 capN hc
  have h85 := pct_gt_iff u 85 capN hc
  have h75 := pct_gt_iff u 75 capN hc
  push_cast at h95 h85 h75
  simp only [spec_penalty]
  rw [if_congr h95 rfl (if_congr h85 rfl (if_congr h75 rfl rfl))]

theorem parse_encode_header_mod (a b c d : Nat) :
    parse_header (encode_header ⟨a, b, c, d⟩) =
      ⟨a % 4294967296, b % 4294967296, c % 4294967296, d % 4294967296⟩ := by
  simp only [encode_header, encU32, List.cons_append, List.nil_append, parse_header,
    decU32, history_header_t.mk.injEq]
  refine ⟨?_, ?_, ?_, ?_⟩ <;> omega

/-! The claims. -/

/-- C1: starting from empty storage, 53 sequential save operations leave a
persisted store of exactly 50 records whose run numbers are exactly 4..53
in oldest-first order: each save appends at the end, shifts out position 0
when 50 records are already held (strict FIFO), and numbers the new record
1 on an empty load and last run + 1 otherwise. -/
theorem save_53_runs_4_to_53 :
    (load_history (some (save_step^[53] [])) uninit_hdr uninit_buf).count = 50 ∧
    ((load_history (some (save_step^[53] [])) uninit_hdr uninit_buf).snaps.take 50).map
      snapshot_t.run_number = List.range' 4 50 := by
  rw [save_step_iterate 53 (by omega) (by omega),
    load_history_encode_file (storeC 53) (storeC_wf 53 (by omega))
      (by rw [storeC_length]; omega) 0 (by norm_num) uninit_hdr uninit_buf]
  decide

/-- C2: a missing file, a header that cannot be read, or a header whose magic
or version differs from the expected constants makes load_history return an
empty store (count 0) with the caller's record buffer untouched, for every
remaining byte content; the embedding is total, mirroring that this path
never raises an error or aborts. -/
theorem load_bad_header_returns_empty (file : Option (List Nat)) (hdr0 : history_header_t)
    (buf : List snapshot_t)
    (h : file = none ∨ ∃ bytes, file = some bytes ∧
      (bytes.length < 16 ∨ (parse_header (bytes.take 16)).magic ≠ HISTORY_MAGIC ∨
       (parse_header (bytes.take 16)).version ≠ HISTORY_VERSION)) :
    (load_history file hdr0 buf).count = 0 ∧ (load_history file hdr0 buf).snaps = buf := by
  rcases h with rfl | ⟨bytes, rfl, hbad⟩
  · exact ⟨rfl, rfl⟩
  · by_cases hl : bytes.length < 16
    · simp [load_history, hl]
    · have hcond : (parse_header (bytes.take 16)).magic ≠ HISTORY_MAGIC ∨
          (parse_header (bytes.take 16)).version ≠ HISTORY_VERSION := by
        rcases hbad with h16 | hm | hv
        · omega
        · exact Or.inl hm
        · exact Or.inr hv
      simp [load_history, if_neg hl, if_pos hcond]

/-- C2 witness: a three-byte file (header unreadable) loads as an empty store. -/
theorem load_bad_header_returns_empty_witness :
    (load_history (some [1, 2, 3]) uninit_hdr uninit_buf).count = 0 ∧
    (load_history (some [1, 2, 3]) uninit_hdr uninit_buf).snaps = uninit_buf :=
  load_bad_header_returns_empty (some [1, 2, 3]) uninit_hdr uninit_buf
    (Or.inr ⟨[1, 2, 3], rfl, Or.inl (by decide)⟩)

/-- C3: the health score collect_snapshot computes equals the spec's reference
derivation: start at 100, subtract 30/15/5 when the cluster-usage percent
(used/2048 × 100) exceeds 95/85/75, independently subtract 30/15/5 when the
inode-usage percent (used/6143 × 100) exceeds 95/85/75, clamp at 0; when
the usage probe failed the score is the sentinel -1, never clamped. -/
theorem collect_health_matches_spec (m : metrics_bundle) (run : Nat) :
    (collect_snapshot m run).nand_health_score =
      spec_health_score m.nand_ok m.used_bytes m.used_inodes := by
  cases hm : m.nand_ok
  · simp [collect_snapshot, spec_health_score, hm]
  · simp only [collect_snapshot, spec_health_score, hm, if_true]
    rw [spec_penalty_cap m.used_bytes 2048 2048 (by norm_num) (by norm_num),
      spec_penalty_cap m.used_inodes 6143 6143 (by norm_num) (by norm_num)]
    simp only [nand_health_score_calc]
    rw [max_def]
    split_ifs <;> omega

/-- C4: show_trend classifies Unchanged exactly when the values are equal,
Worse exactly when the change direction matches higher_is_worse (rose when
higher-is-worse, fell when lower-is-worse), Improved otherwise; and
run_history draws no health-score classification when either score is the
-1 sentinel. -/
theorem trend_classification (o n : Int) (w : Bool) :
    (show_trend_class o n w = .unchanged ↔ o = n) ∧
    (show_trend_class o n w = .worse ↔ ((o < n ∧ w = true) ∨ (n < o ∧ w = false))) ∧
    (show_trend_class o n w = .improved ↔
      (o ≠ n ∧ ¬((o < n ∧ w = true) ∨ (n < o ∧ w = false)))) ∧
    (∀ c : Int, health_trend_shown (-1) c = false) ∧
    (∀ p : Int, health_trend_shown p (-1) = false) := by
  have hh1 : ∀ c : Int, health_trend_shown (-1) c = false := by
    intro c
    simp [health_trend_shown]
  have hh2 : ∀ p : Int, health_trend_shown p (-1) = false := by
    intro p
    simp [health_trend_shown]
  refine ⟨?_, ?_, ?_, hh1, hh2⟩ <;> cases w <;>
    · unfold show_trend_class
      split_ifs with h1 h2 <;> (try simp_all) <;> omega

/-- C5: the health-regression alert fires exactly when both scores are valid
(not the -1 sentinel) and current < previous - 10; at the boundary
(previous 80, current 70) it does not fire, one below (current 69) it
fires. -/
theorem health_regression_boundary (p c : Int) (hp : valid_score p) (hc : valid_score c) :
    (health_regression_alert p c = true ↔ (p ≠ -1 ∧ c ≠ -1 ∧ c < p - 10)) ∧
    health_regression_alert 80 70 = false ∧
    health_regression_alert 80 69 = true := by
  refine ⟨?_, by decide, by decide⟩
  simp only [health_regression_alert, Bool.and_eq_true, decide_eq_true_eq, valid_score] at hp hc ⊢
  omega

/-- C5 witness: the theorem applied at previous 80, current 69 (both valid). -/
theorem health_regression_boundary_witness :
    ((health_regression_alert 80 69 = true ↔
      ((80 : Int) ≠ -1 ∧ (69 : Int) ≠ -1 ∧ (69 : Int) < 80 - 10)) ∧
     health_regression_alert 80 70 = false ∧
     health_regression_alert 80 69 = true) :=
  health_regression_boundary 80 69 (Or.inr (by decide)) (Or.inr (by decide))

/-- C6 counterexample: the claim that a persist I/O failure is reported to the
caller as a boolean success flag is false — with the write-open failing,
history_save_snapshot writes nothing yet still reaches the unconditional
"Snapshot saved" success report; the source function returns void and no
flag distinguishes the two outcomes. -/
theorem save_failure_not_reported :
    (history_save_snapshot [] false zero_bundle uninit_hdr uninit_buf).file = none ∧
    (history_save_snapshot [] false zero_bundle uninit_hdr uninit_buf).reported_ok = true := by
  decide

/-- C6 amended: a persist I/O failure (including failure to open the file for
writing) is not reported at all — history_save_snapshot returns void, leaves
the file unchanged, and still draws the success message — but the in-memory
record sequence and run number the caller holds are unaffected by the
failure (identical to the successful-write run). -/
theorem save_failure_silent_memory_intact (f : List Nat) (m : metrics_bundle)
    (hdr0 : history_header_t) (buf : List snapshot_t) :
    (history_save_snapshot f false m hdr0 buf).file = none ∧
    (history_save_snapshot f false m hdr0 buf).reported_ok = true ∧
    (history_save_snapshot f false m hdr0 buf).in_memory =
      (history_save_snapshot f true m hdr0 buf).in_memory ∧
    (history_save_snapshot f false m hdr0 buf).run_number =
      (history_save_snapshot f true m hdr0 buf).run_number :=
  ⟨rfl, rfl, rfl, rfl⟩

/-- C7: with more than one record on file, the timeline emits exactly
min(10, length) rows — one per record, covering the last min(10, length)
records in store (ascending run-number) order, with run number, clusters,
inodes and the score text per row; the -1 sentinel renders distinctly from
every in-range numeric score, and a 15-entry store with runs 1..15 yields
exactly the rows for runs 6..15. -/
theorem timeline_last_ten_rows (snaps : List snapshot_t) (h : snaps.length > 1) :
    (timeline_rows snaps).length = min 10 snaps.length ∧
    timeline_rows snaps =
      (snaps.drop (snaps.length - min 10 snaps.length)).map timeline_row_of ∧
    (List.Pairwise (· < ·) (snaps.map snapshot_t.run_number) →
      List.Pairwise (· < ·) ((timeline_rows snaps).map timeline_row.run_number)) ∧
    (∀ sc : Fin 101, score_cell (-1) ≠ score_cell ((sc : Nat) : Int)) ∧
    ((timeline_rows ((List.range' 1 15).map snapC)).map timeline_row.run_number =
      List.range' 6 10) := by
  have hd : (if snaps.length > 10 then snaps.length - 10 else 0) =
      snaps.length - min 10 snaps.length := by
    split <;> omega
  refine ⟨?_, ?_, ?_, by decide, by decide⟩
  · simp only [timeline_rows, if_pos h, hd, List.length_map, List.length_drop]
    omega
  · simp only [timeline_rows, if_pos h, hd]
  · intro hp
    simp only [timeline_rows, if_pos h, hd, List.map_map]
    rw [show timeline_row.run_number ∘ timeline_row_of = snapshot_t.run_number from rfl,
      List.map_drop]
    exact List.Pairwise.sublist (List.drop_sublist _ _) hp

/-- C7 witness: the theorem applied to a concrete two-record store. -/
theorem timeline_last_ten_rows_witness :
    (timeline_rows two_store).length = min 10 two_store.length ∧
    timeline_rows two_store =
      (two_store.drop (two_store.length - min 10 two_store.length)).map timeline_row_of ∧
    (List.Pairwise (· < ·) (two_store.map snapshot_t.run_number) →
      List.Pairwise (· < ·) ((timeline_rows two_store).map timeline_row.run_number)) ∧
    (∀ sc : Fin 101, score_cell (-1) ≠ score_cell ((sc : Nat) : Int)) ∧
    ((timeline_rows ((List.range' 1 15).map snapC)).map timeline_row.run_number =
      List.range' 6 10) :=
  timeline_last_ten_rows two_store (by decide)

/-- C8: the defensive clamp of the declared record count to 50 is broken by
the `(int)` cast: a valid header declaring 51 records is clamped to 50 as
the claim says, but a valid header declaring 2^31 records makes
load_history return the negative count -2^31 instead of 50 (its callers
then index the snaps array at a negative position). -/
theorem load_count_cast_overflow_bug :
    (load_history (some large_count_file) uninit_hdr uninit_buf).count = 50 ∧
    (load_history (some overflow_count_file) uninit_hdr uninit_buf).count = -2147483648 := by
  decide

/-- C9 counterexample: the claim that every header written by the persist path
has reserved = 0 is false — saving onto a valid pre-existing file whose
header carries 7 in the reserved field writes a header whose reserved field
is 7, because save_history sets magic, version and count but never touches
reserved. -/
theorem saved_reserved_not_zero :
    (parse_header (((history_save_snapshot fileR7 true zero_bundle uninit_hdr
      uninit_buf).file.getD []).take 16)).reserved = 7 ∧
    (parse_header (((history_save_snapshot fileR7 true zero_bundle uninit_hdr
      uninit_buf).file.getD []).take 16)).reserved ≠ 0 := by
  decide

/-- C9 amended: the persist path carries the reserved field of the header
load_history produced through to disk unchanged (truncated to 32 bits):
the prior file's value when a valid header was loaded, the caller's
uninitialized stack value when none was. -/
theorem saved_reserved_preserved (f : List Nat) (m : metrics_bundle)
    (hdr0 : history_header_t) (buf : List snapshot_t) :
    (parse_header (((history_save_snapshot f true m hdr0 buf).file.getD []).take 16)).reserved =
      (load_history (some f) hdr0 buf).hdr.reserved % 4294967296 := by
  rw [history_save_snapshot]
  dsimp only
  rw [save_history, if_pos rfl]
  dsimp only [Option.getD_some]
  rw [List.take_left' (encode_header_length _), parse_encode_header_mod]

/-- C10 counterexample: the claim quantifies over every valid-header file
whose body holds fewer complete records than the declared count and asserts
decode returns min(header.count, 50); the file whose valid header declares
2^31 records over an empty body (zero complete records) refutes it — the
`(int)` cast makes load_history return -2^31, not min(2^31, 50) = 50. -/
theorem load_short_body_count_not_min :
    (load_history (some overflow_count_file) uninit_hdr uninit_buf).count = -2147483648 ∧
    (load_history (some overflow_count_file) uninit_hdr uninit_buf).count ≠
      ((min 2147483648 50 : Nat) : Int) := by
  decide

/-- C10 amended: for every valid-header file whose declared count is below
2^31 (so the source's `(int)` cast preserves it) and whose body holds fewer
complete records than min(count, 50), load_history still returns
min(header.count, 50) as the record count without verifying the body
supplied that many records, and every returned record beyond those actually
present in the file is the caller's unread (uninitialized) buffer entry,
passed through unchanged; for declared counts at or above 2^31 the cast
instead yields a negative returned count. -/
theorem load_short_body_returns_unread_buffer (c r : Nat) (body : List Nat)
    (hdr0 : history_header_t) (buf : List snapshot_t)
    (hc0 : 0 < c) (hc31 : c < 2147483648) (hr : r < 4294967296)
    (hshort : body.length / SNAPSHOT_SIZE < min c 50) :
    (load_history (some (encode_header ⟨HISTORY_MAGIC, HISTORY_VERSION, c, r⟩ ++ body))
        hdr0 buf).count = ((min c 50 : Nat) : Int) ∧
    ∀ i, body.length / SNAPSHOT_SIZE ≤ i →
      (load_history (some (encode_header ⟨HISTORY_MAGIC, HISTORY_VERSION, c, r⟩ ++ body))
          hdr0 buf).snaps.getD i default = buf.getD i default := by
  have hlen : ¬ ((encode_header ⟨HISTORY_MAGIC, HISTORY_VERSION, c, r⟩ ++ body).length < 16) := by
    rw [List.length_append, encode_header_length]
    omega
  have hparse : parse_header ((encode_header ⟨HISTORY_MAGIC, HISTORY_VERSION, c, r⟩ ++
      body).take 16) = ⟨HISTORY_MAGIC, HISTORY_VERSION, c, r⟩ := by
    rw [List.take_left' (encode_header_length _), parse_encode_header_mod]
    rw [show HISTORY_MAGIC % 4294967296 = HISTORY_MAGIC by norm_num [HISTORY_MAGIC],
      show HISTORY_VERSION % 4294967296 = HISTORY_VERSION by norm_num [HISTORY_VERSION],
      Nat.mod_eq_of_lt (by omega), Nat.mod_eq_of_lt hr]
  simp only [load_history, if_neg hlen, hparse]
  rw [if_neg (by simp [HISTORY_MAGIC, HISTORY_VERSION])]
  have hs32 : s32ofU32 c = (c : Int) := by
    simp only [s32ofU32]
    rw [if_pos (by omega)]
  simp only [hs32]
  have hclamp : (if (c : Int) > (MAX_SNAPSHOTS : Int) then (MAX_SNAPSHOTS : Int) else (c : Int)) =
      ((min c 50 : Nat) : Int) := by
    simp only [MAX_SNAPSHOTS]
    split <;> omega
  rw [hclamp, if_pos (by omega : ((min c 50 : Nat) : Int) > 0),
    List.drop_left' (encode_header_length _)]
  have havail : min (((min c 50 : Nat) : Int)).toNat (body.length / SNAPSHOT_SIZE) =
      body.length / SNAPSHOT_SIZE := by
    rw [Int.toNat_natCast]
    omega
  rw [havail]
  refine ⟨rfl, ?_⟩
  intro i hi
  rw [List.getD_append_right _ _ _ _ (by simpa using hi)]
  simp only [List.length_map, List.length_range]
  rw [List.getD_eq_getElem?_getD, List.getD_eq_getElem?_getD, List.getElem?_drop,
    show body.length / SNAPSHOT_SIZE + (i - body.length / SNAPSHOT_SIZE) = i by omega]

/-- C10 witness: the amended theorem applied at a declared count of 70 (so the
clamp to 50 is exercised) over a body holding one complete record. -/
theorem load_short_body_returns_unread_buffer_witness :
    (load_history (some (encode_header ⟨HISTORY_MAGIC, HISTORY_VERSION, 70, 0⟩ ++
        encode_snapshot (snapC 1))) uninit_hdr uninit_buf).count = ((min 70 50 : Nat) : Int) ∧
    ∀ i, (encode_snapshot (snapC 1)).length / SNAPSHOT_SIZE ≤ i →
      (load_history (some (encode_header ⟨HISTORY_MAGIC, HISTORY_VERSION, 70, 0⟩ ++
          encode_snapshot (snapC 1))) uninit_hdr uninit_buf).snaps.getD i default =
        uninit_buf.getD i default :=
  load_short_body_returns_unread_buffer 70 0 (encode_snapshot (snapC 1)) uninit_hdr uninit_buf
    (by decide) (by decide) (by decide) (by decide)

end WiiMedic
